import Mathlib

/-!
Verification development for the draw-and-impress repository.

The definitions below are a shallow embedding of the game's core:

* `transitionRoom`, `updateScoresFromVotes`, `check_phase_transitions` and
  `transition_room` embed `supabase/functions/game-manager/index.ts`;
* `createRoomRow`, `startGameRow`, `submitDrawing`, `castVote` embed the
  client hook (`src/hooks/useRoom.ts` and its sibling variant);
* the vote-table unique constraints embed the SQL migrations.

Timestamps are modelled as natural numbers of milliseconds (the source
compares ISO-8601 strings, whose order coincides with chronological
order).  Randomness (`Math.random()` for prompt selection) is modelled by
an explicit natural-number parameter `k`; the chosen index is `k %` the
pool size, which ranges over exactly the indices the source can pick.
Database rows are modelled as lists of records; a Supabase
`.update(..).eq('id', x)` is a `List.map` touching the matching rows.
-/

/-- A row of the `rooms` table (migration 20260113151252). -/
structure Room where
  id : String
  code : String
  host_id : String
  status : String
  current_round : Nat
  total_rounds : Nat
  draw_time : Nat
  vote_time : Nat
  max_players : Nat
  current_prompt : Option String
  phase_end_at : Option Nat
  deriving DecidableEq

/-- A row of the `players` table (fields relevant to the claims). -/
structure Player where
  id : String
  room_id : String
  user_id : String
  username : String
  score : Nat
  is_host : Bool
  deriving DecidableEq

/-- A row of the `drawings` table. -/
structure Drawing where
  id : String
  room_id : String
  player_id : String
  round : Nat
  image_data : String
  vote_count : Nat
  deriving DecidableEq

/-- A row of the `votes` table (fields relevant to the claims). -/
structure Vote where
  room_id : String
  voter_id : String
  drawing_id : String
  round : Nat
  deriving DecidableEq

/-- The durable store: the four entity tables. -/
structure DB where
  rooms : List Room
  players : List Player
  drawings : List Drawing
  votes : List Vote
  deriving DecidableEq

/-- The `{roomId, from, to}` record returned by `transitionRoom`
(`from`/`to` are renamed `fromPhase`/`toPhase`, `from` being a Lean
keyword). -/
structure TransitionOut where
  roomId : String
  fromPhase : String
  toPhase : String
  deriving DecidableEq

/-- The `increment_player_score` RPC: add `p_points` to the score of the
player row whose id is `p_player_id`. -/
def increment_player_score (ps : List Player) (p_player_id : String)
    (p_points : Nat) : List Player :=
  ps.map fun p =>
    if p.id == p_player_id then { p with score := p.score + p_points } else p

/-- The drawings-for-this-round query of `updateScoresFromVotes`:
`.from('drawings').eq('room_id', roomId).eq('round', round)`. -/
def roundDrawings (ds : List Drawing) (roomId : String) (round : Nat) :
    List Drawing :=
  ds.filter fun d => d.room_id == roomId && d.round == round

/-- The player-score evolution of the loop in `updateScoresFromVotes`:
for each drawing, `if (drawing.vote_count > 0)` increment the owner's
score by `vote_count`; drawings with zero votes are skipped. -/
def scorePassPlayers (ps : List Player) (ds : List Drawing) : List Player :=
  ds.foldl
    (fun a d =>
      if d.vote_count > 0 then increment_player_score a d.player_id d.vote_count
      else a)
    ps

/-- The sequence of `increment_player_score` calls issued by the loop in
`updateScoresFromVotes` (observable score-update events): one
`(player_id, points)` pair per drawing with `vote_count > 0`, none for a
drawing with zero votes. -/
def scoreUpdates (ds : List Drawing) : List (String × Nat) :=
  ds.filterMap fun d =>
    if d.vote_count > 0 then some (d.player_id, d.vote_count) else none

/-- `updateScoresFromVotes(supabase, roomId, round)`.  `fetchError`
models `drawingsError` on the drawings query: in that case the source
logs the error and `return`s without throwing, so the store is left
untouched and no updates are issued.  Returns the new store paired with
the list of score updates issued. -/
def updateScoresFromVotes (fetchError : Bool) (db : DB) (roomId : String)
    (round : Nat) : DB × List (String × Nat) :=
  if fetchError then (db, [])
  else
    let ds := roundDrawings db.drawings roomId round
    ({ db with players := scorePassPlayers db.players ds }, scoreUpdates ds)

/-- The `switch (status)` of `transitionRoom`: given the wall clock, the
prompt pool (the `.limit(100)` query result) and the random draw `k`,
compute `(newStatus, newRound, newPhaseEndAt, newPrompt)` from the room
snapshot, or `none` for the `default` branch. -/
def transitionFields (now : Nat) (prompts : List String) (k : Nat)
    (room : Room) : Option (String × Nat × Option Nat × Option String) :=
  if room.status == "drawing" then
    some ("voting", room.current_round, some (now + room.vote_time * 1000),
      room.current_prompt)
  else if room.status == "voting" then
    some ("results", room.current_round, some (now + 10000),
      room.current_prompt)
  else if room.status == "results" then
    if room.current_round ≥ room.total_rounds then
      some ("finished", room.current_round, none, room.current_prompt)
    else
      let newPrompt :=
        match prompts.get? (k % prompts.length) with
        | some t => some t
        | none => room.current_prompt
      some ("drawing", room.current_round + 1,
        some (now + room.draw_time * 1000), newPrompt)
  else if room.status == "gallery" then
    some ("voting", room.current_round, some (now + room.vote_time * 1000),
      room.current_prompt)
  else
    none

/-- The room-row write of `transitionRoom`:
`.from('rooms').update({status, current_round, phase_end_at,
current_prompt}).eq('id', id)`. -/
def updateRoomRow (rooms : List Room) (id : String) (st : String)
    (rnd : Nat) (pe : Option Nat) (pr : Option String) : List Room :=
  rooms.map fun r =>
    if r.id == id then
      { r with status := st, current_round := rnd, phase_end_at := pe,
               current_prompt := pr }
    else r

/-- `transitionRoom(supabase, room)`: acts on the store `db` from the
pre-read snapshot `room` (the source never re-reads the row or guards the
write on its previous value).  In the `voting` case the scoring pass runs
before the room write.  Returns the updated store and the
`{roomId, from, to}` result (`none` for the `default` branch). -/
def transitionRoom (now : Nat) (prompts : List String) (k : Nat)
    (fetchError : Bool) (db : DB) (room : Room) : DB × Option TransitionOut :=
  match transitionFields now prompts k room with
  | none => (db, none)
  | some (st, rnd, pe, pr) =>
    let db1 :=
      if room.status == "voting" then
        (updateScoresFromVotes fetchError db room.id room.current_round).1
      else db
    ({ db1 with rooms := updateRoomRow db1.rooms room.id st rnd pe pr },
      some ⟨room.id, room.status, st⟩)

/-- The expired-rooms query of the `check_phase_transitions` action:
status not in `{lobby, finished}`, `phase_end_at` non-null and
`phase_end_at < now`. -/
def expiredRooms (db : DB) (now : Nat) : List Room :=
  db.rooms.filter fun r =>
    r.status != "lobby" && r.status != "finished" &&
      (match r.phase_end_at with
       | some t => decide (t < now)
       | none => false)

/-- The `check_phase_transitions` action: read the expired-room snapshot
once, then call `transitionRoom` on each snapshot row, collecting the
non-`none` results. -/
def check_phase_transitions (now : Nat) (prompts : List String) (k : Nat)
    (fetchError : Bool) (db : DB) : DB × List TransitionOut :=
  (expiredRooms db now).foldl
    (fun acc room =>
      let r := transitionRoom now prompts k fetchError acc.1 room
      (r.1, acc.2 ++ r.2.toList))
    (db, [])

/-- The `transition_room` action: fetch the room by id and call
`transitionRoom` on it — with no check of `phase_end_at` against the
clock. -/
def transition_room (now : Nat) (prompts : List String) (k : Nat)
    (fetchError : Bool) (db : DB) (roomId : String) :
    DB × Option TransitionOut :=
  match db.rooms.find? (fun r => r.id == roomId) with
  | none => (db, none)
  | some room => transitionRoom now prompts k fetchError db room

/-! ## Client operations (`src/hooks/useRoom.ts` and its variant) -/

/-- The room row inserted by `createRoom`: only `code`, `host_id` and
`status: 'lobby'` are supplied; every other column takes its schema
default (`current_round 0`, `total_rounds 3`, `draw_time 60`,
`vote_time 30`, `max_players 8`, `current_prompt NULL`,
`phase_end_at NULL`). -/
def createRoomRow (id code host_id : String) : Room :=
  { id := id, code := code, host_id := host_id, status := "lobby",
    current_round := 0, total_rounds := 3, draw_time := 60, vote_time := 30,
    max_players := 8, current_prompt := none, phase_end_at := none }

/-- The prompt picked by `startGame`:
`prompts?.[Math.floor(Math.random() * (prompts?.length || 1))]?.text ||
'Draw something!'` — on an empty pool the index lookup is undefined and
the fallback string is used. -/
def startGamePrompt (prompts : List String) (k : Nat) : String :=
  match prompts.get? (k % max prompts.length 1) with
  | some t => t
  | none => "Draw something!"

/-- The room update performed by `startGame`: status `drawing`, round 1,
a random prompt, deadline `now + draw_time` seconds. -/
def startGameRow (room : Room) (now : Nat) (prompts : List String)
    (k : Nat) : Room :=
  { room with status := "drawing", current_round := 1,
              current_prompt := some (startGamePrompt prompts k),
              phase_end_at := some (now + room.draw_time * 1000) }

/-- The key of the `unique_player_round_drawing` constraint
(migration 20260115082218: `UNIQUE (player_id, room_id, round)`). -/
def drawingKeyMatch (d : Drawing) (playerId roomId : String)
    (round : Nat) : Bool :=
  d.player_id == playerId && d.room_id == roomId && d.round == round

/-- `submitDrawing(imageData)` (the idempotency-handling variant): an
upsert of `{room_id, player_id, round: room.current_round, image_data}`
with `onConflict: 'player_id,room_id,round'` and
`ignoreDuplicates: false`, i.e. merge-on-conflict: when a row with the
key already exists its payload is replaced, otherwise a fresh row
(`newId`) is inserted.  There is no check of `room.status`, and the
round written is always the client's `room.current_round`.  Returns the
store and the boolean the hook returns (`true` on upsert success and on
a duplicate-key error alike). -/
def submitDrawing (db : DB) (room : Room) (playerId : String)
    (imageData : String) (newId : String) : DB × Bool :=
  match db.drawings.find?
      (fun d => drawingKeyMatch d playerId room.id room.current_round) with
  | some _ =>
    ({ db with drawings := db.drawings.map fun d =>
        if drawingKeyMatch d playerId room.id room.current_round then
          { d with image_data := imageData }
        else d }, true)
  | none =>
    ({ db with drawings := db.drawings ++
        [{ id := newId, room_id := room.id, player_id := playerId,
           round := room.current_round, image_data := imageData,
           vote_count := 0 }] }, true)

/-! ## Vote constraints across the migrations -/

/-- The unique constraints the migrations place on the `votes` table. -/
inductive VoteConstraint where
  | voter_round
  | voter_room_round
  | voter_drawing
  deriving DecidableEq

/-- `votes` constraints after migration 20260113151252:
`UNIQUE(voter_id, round)`. -/
def initialVoteConstraints : List VoteConstraint := [.voter_round]

/-- After migration 20260115082218, which adds `unique_voter_round_vote`
`UNIQUE (voter_id, room_id, round)`. -/
def afterSecurityMigration : List VoteConstraint :=
  initialVoteConstraints ++ [.voter_room_round]

/-- After migration 20260115233000, which drops only
`votes_voter_id_round_key` (the `(voter_id, round)` constraint) and adds
`votes_voter_id_drawing_key` `UNIQUE (voter_id, drawing_id)`. -/
def afterFixGame : List VoteConstraint :=
  afterSecurityMigration.filter (fun c => c ≠ .voter_round) ++
    [.voter_drawing]

/-- Whether inserting `v` next to the existing row `w` would violate
constraint `c`. -/
def violates (c : VoteConstraint) (w v : Vote) : Bool :=
  match c with
  | .voter_round => w.voter_id == v.voter_id && w.round == v.round
  | .voter_room_round =>
    w.voter_id == v.voter_id && w.room_id == v.room_id && w.round == v.round
  | .voter_drawing =>
    w.voter_id == v.voter_id && w.drawing_id == v.drawing_id

/-- Whether an insert of `v` into `votes` raises a unique-constraint
error (Postgres code 23505) under the active constraints `cs`. -/
def voteInsertConflict (cs : List VoteConstraint) (votes : List Vote)
    (v : Vote) : Bool :=
  votes.any fun w => cs.any fun c => violates c w v

/-- The `update_drawing_vote_count` trigger: after a vote insert,
recompute the drawing's `vote_count` from the `votes` table. -/
def update_drawing_vote_count (ds : List Drawing) (votes : List Vote)
    (drawingId : String) : List Drawing :=
  ds.map fun d =>
    if d.id == drawingId then
      { d with vote_count :=
          (votes.filter fun w => w.drawing_id == drawingId).length }
    else d

/-- Outcome of `castVote` as surfaced to the user. -/
inductive CastVoteOutcome where
  | accepted
  | alreadyVoted
  deriving DecidableEq

/-- `castVote(drawingId)` from `src/hooks/useRoom.ts`: first a pre-check
query for any existing vote with this `voter_id` and
`round = room.current_round` (no room or drawing filter); if one exists
the hook shows the "Already voted" toast and stops.  Otherwise it inserts
`{room_id, voter_id, drawing_id, round}`; a 23505 unique-violation is
also surfaced as "Already voted".  On success the database trigger
recomputes the drawing's `vote_count`.  No comparison of the voter with
the drawing's owner appears anywhere. -/
def castVote (db : DB) (roomId voterId drawingId : String) (round : Nat) :
    DB × CastVoteOutcome :=
  if db.votes.any (fun w => w.voter_id == voterId && w.round == round) then
    (db, .alreadyVoted)
  else
    let v : Vote := { room_id := roomId, voter_id := voterId,
                      drawing_id := drawingId, round := round }
    if voteInsertConflict afterFixGame db.votes v then
      (db, .alreadyVoted)
    else
      let votes := db.votes ++ [v]
      ({ db with
          votes := votes,
          drawings := update_drawing_vote_count db.drawings votes drawingId },
        .accepted)

/-! ## Reachable room states

The room row is written by `createRoom` (insert), the host's settings
updates from the lobby screen (`updateSettings({total_rounds})` /
`updateSettings({draw_time})`), `startGame`, and the committed part of
`transitionRoom`.  `ReachableRoom` closes over all of them; the advance
step is taken directly from `transitionFields`, the same switch
`transitionRoom` commits. -/

inductive ReachableRoom : Room → Prop where
  | created (id code host_id : String) :
      ReachableRoom (createRoomRow id code host_id)
  | settings_rounds (r : Room) (n : Nat) : ReachableRoom r →
      ReachableRoom { r with total_rounds := n }
  | settings_draw (r : Room) (n : Nat) : ReachableRoom r →
      ReachableRoom { r with draw_time := n }
  | started (r : Room) (now : Nat) (prompts : List String) (k : Nat) :
      ReachableRoom r → ReachableRoom (startGameRow r now prompts k)
  | advanced (r : Room) (now : Nat) (prompts : List String) (k : Nat)
      (st : String) (rnd : Nat) (pe : Option Nat) (pr : Option String) :
      ReachableRoom r →
      transitionFields now prompts k r = some (st, rnd, pe, pr) →
      ReachableRoom { r with status := st, current_round := rnd,
                             phase_end_at := pe, current_prompt := pr }

/-! ## Observers and concrete fixtures -/

/-- The score of the (first) player row with the given id, if any. -/
def getScore : List Player → String → Option Nat
  | [], _ => none
  | p :: ps, pid => if p.id == pid then some p.score else getScore ps pid

/-- Total number of votes received by `pid`'s drawings in a list
(count scoring mode: one point per vote received). -/
def sumVotes (ds : List Drawing) (pid : String) : Nat :=
  ((ds.filter fun d => d.player_id == pid).map Drawing.vote_count).sum

/-- A room in the drawing phase, deadline at t = 1000. -/
def roomDrawingEx : Room :=
  ⟨"r1", "AAAA", "h", "drawing", 1, 3, 60, 30, 8, some "cat", some 1000⟩

/-- A room in the voting phase, deadline at t = 1000. -/
def roomVotingEx : Room :=
  ⟨"r1", "AAAA", "h", "voting", 1, 3, 60, 30, 8, some "cat", some 1000⟩

/-- A room in the results phase of round 1 of 3, deadline at t = 1000. -/
def roomResultsEx : Room :=
  ⟨"r2", "BBBB", "h", "results", 1, 3, 60, 30, 8, some "cat", some 1000⟩

/-- A room in the gallery phase, deadline at t = 1000. -/
def roomGalleryEx : Room :=
  ⟨"rg", "GGGG", "h", "gallery", 1, 3, 60, 30, 8, some "cat", some 1000⟩

/-- A store with the voting room, two players, a drawing of player p1
with two votes recorded in its aggregate, and a zero-vote drawing of
player p2. -/
def dbVotingEx : DB :=
  ⟨[roomVotingEx],
   [⟨"p1", "r1", "u1", "alice", 0, true⟩, ⟨"p2", "r1", "u2", "bob", 0, false⟩],
   [⟨"d1", "r1", "p1", 1, "img", 2⟩, ⟨"d0", "r1", "p2", 1, "img0", 0⟩],
   []⟩

/-- A finished room: no deadline, last round played. -/
def roomFinishedEx : Room :=
  ⟨"rf", "FFFF", "h", "finished", 3, 3, 60, 30, 8, none, none⟩

/-- A store holding only the drawing-phase room. -/
def dbDrawingEx : DB := ⟨[roomDrawingEx], [], [], []⟩

/-- A store holding only the gallery-phase room. -/
def dbGalleryEx : DB := ⟨[roomGalleryEx], [], [], []⟩

/-- A store with the voting room and a single zero-vote drawing owned by
player p2. -/
def dbZeroVoteEx : DB :=
  ⟨[roomVotingEx], [⟨"p2", "r1", "u2", "bob", 0, false⟩],
   [⟨"d0", "r1", "p2", 1, "img0", 0⟩], []⟩

/-- A store with the voting room, player p1, p1's own drawing and no
votes yet. -/
def dbSelfVoteEx : DB :=
  ⟨[roomVotingEx], [⟨"p1", "r1", "u1", "alice", 0, true⟩],
   [⟨"d1", "r1", "p1", 1, "img", 0⟩], []⟩

/-- A store with the voting room and no drawings or votes. -/
def dbVotingEmptyEx : DB := ⟨[roomVotingEx], [], [], []⟩

/-! ## Helper lemmas -/

theorem updateScoresFromVotes_rooms (ferr : Bool) (db : DB) (roomId : String)
    (round : Nat) :
    (updateScoresFromVotes ferr db roomId round).1.rooms = db.rooms := by
  by_cases h : ferr <;> simp [updateScoresFromVotes, h]

theorem getScore_increment (ps : List Player) (pid q : String) (pts : Nat) :
    getScore (increment_player_score ps pid pts) q =
      if q = pid then (getScore ps q).map (· + pts) else getScore ps q := by
  induction ps with
  | nil =>
    by_cases hq : q = pid <;> simp [getScore, increment_player_score, hq]
  | cons p ps ih =>
    have hmap : increment_player_score (p :: ps) pid pts =
        (if p.id == pid then { p with score := p.score + pts } else p) ::
          increment_player_score ps pid pts := by
      simp [increment_player_score]
    rw [hmap]
    by_cases hid : p.id = pid
    · by_cases hpq : p.id = q
      · have hq : q = pid := hpq.symm.trans hid
        simp [getScore, hid, hpq, hq]
      · have hq : ¬ q = pid := fun h => hpq (hid.trans h.symm)
        have hq' : ¬ pid = q := fun h => hq h.symm
        have ih' : getScore (increment_player_score ps pid pts) q =
            getScore ps q := by simpa [hq] using ih
        simp [getScore, hid, hpq, hq, hq', ih']
    · by_cases hpq : p.id = q
      · have hq : ¬ q = pid := fun h => hid (hpq.trans h)
        simp [getScore, hid, hpq, hq]
      · by_cases hq : q = pid
        · have ih' : getScore (increment_player_score ps pid pts) pid =
              (getScore ps pid).map (· + pts) := by simpa [hq] using ih
          simpa [getScore, hid, hpq, hq] using ih'
        · have ih' : getScore (increment_player_score ps pid pts) q =
              getScore ps q := by simpa [hq] using ih
          simp [getScore, hid, hpq, hq, ih']

theorem getScore_scorePassPlayers (ds : List Drawing) (ps : List Player)
    (pid : String) :
    getScore (scorePassPlayers ps ds) pid =
      (getScore ps pid).map (· + sumVotes ds pid) := by
  induction ds generalizing ps with
  | nil => cases h : getScore ps pid <;> simp [scorePassPlayers, sumVotes, h]
  | cons d ds ih =>
    by_cases hv : 0 < d.vote_count
    · have step :
          scorePassPlayers ps (d :: ds) =
            scorePassPlayers
              (increment_player_score ps d.player_id d.vote_count) ds := by
        simp [scorePassPlayers, hv]
      rw [step, ih, getScore_increment]
      by_cases hp : pid = d.player_id
      · have hsum : sumVotes (d :: ds) pid = d.vote_count + sumVotes ds pid := by
          simp [sumVotes, ← hp]
        cases h : getScore ps pid with
        | none => simp [h, hp]
        | some v =>
          rw [if_pos hp]
          simp [hsum, Nat.add_assoc]
      · have hps : ¬ d.player_id = pid := fun h => hp h.symm
        simp [sumVotes, hp, hps]
    · have hz : d.vote_count = 0 := Nat.eq_zero_of_not_pos hv
      have step : scorePassPlayers ps (d :: ds) = scorePassPlayers ps ds := by
        simp [scorePassPlayers, hv]
      rw [step, ih]
      by_cases hp : d.player_id = pid <;> simp [sumVotes, hp, hz]

theorem mem_scoreUpdates (ds : List Drawing) (e : String × Nat) :
    e ∈ scoreUpdates ds ↔
      ∃ d ∈ ds, 0 < d.vote_count ∧ e = (d.player_id, d.vote_count) := by
  simp only [scoreUpdates, List.mem_filterMap]
  constructor
  · rintro ⟨d, hd, hsome⟩
    by_cases hv : 0 < d.vote_count
    · exact ⟨d, hd, hv, by simpa [hv] using hsome.symm⟩
    · simp [hv] at hsome
  · rintro ⟨d, hd, hv, rfl⟩
    exact ⟨d, hd, by simp [hv]⟩

theorem find?_append_of_none {α : Type} (p : α → Bool) (l l' : List α)
    (h : l.find? p = none) : (l ++ l').find? p = l'.find? p := by
  induction l with
  | nil => simp
  | cons a l ih =>
    rw [List.find?_cons] at h
    cases hp : p a with
    | true => simp [hp] at h
    | false =>
      simp only [hp] at h
      simpa [List.find?_cons, hp] using ih h

theorem map_id_of_none {α : Type} (p : α → Bool) (f : α → α) (l : List α)
    (h : l.find? p = none) :
    l.map (fun a => if p a then f a else a) = l := by
  induction l with
  | nil => simp
  | cons a l ih =>
    rw [List.find?_cons] at h
    cases hp : p a with
    | true => simp [hp] at h
    | false =>
      simp only [hp] at h
      simp [hp, ih h]

/-! ## Claim C1 -/

/-- C1: refuted on the code — `transitionRoom` neither re-reads the room
nor guards its write on the previous phase/deadline, so two `advance`
invocations that both read the same expired voting-room snapshot (the
claimed concurrent scenario) BOTH perform the phase write and BOTH run
the scoring pass: player p1, whose drawing received 2 votes, ends with
score 4 instead of 2, and neither invocation observes a NoOp. -/
theorem C1_double_scoring_on_concurrent_advance :
    (transitionRoom 2000 [] 0 false dbVotingEx roomVotingEx).2 =
        some ⟨"r1", "voting", "results"⟩
    ∧ (transitionRoom 2001 [] 0 false
          (transitionRoom 2000 [] 0 false dbVotingEx roomVotingEx).1
          roomVotingEx).2 = some ⟨"r1", "voting", "results"⟩
    ∧ getScore
        (transitionRoom 2000 [] 0 false dbVotingEx roomVotingEx).1.players
        "p1" = some 2
    ∧ getScore
        (transitionRoom 2001 [] 0 false
          (transitionRoom 2000 [] 0 false dbVotingEx roomVotingEx).1
          roomVotingEx).1.players "p1" = some 4 := by decide

/-! ## Claim C5 -/

/-- C5: refuted on the code — when the drawings query inside
`updateScoresFromVotes` fails, the function logs and returns without
throwing, so `transitionRoom` still commits voting → results and reports
a transition while no points were awarded: the room does not remain in
its prior phase and no retry will award the lost points. -/
theorem C5_scoring_failure_still_commits :
    (transitionRoom 2000 [] 0 true dbVotingEx roomVotingEx).2 =
        some ⟨"r1", "voting", "results"⟩
    ∧ (transitionRoom 2000 [] 0 true dbVotingEx roomVotingEx).1.rooms.map
        Room.status = ["results"]
    ∧ (transitionRoom 2000 [] 0 true dbVotingEx roomVotingEx).1.players =
        dbVotingEx.players := by decide

/-! ## Claim C2 -/

/-- C2 counterexample: `gallery` is "any other phase value" for the
claim's transition table, yet the code transitions a gallery room to
voting — the claim's "no transition" default is false at this input. -/
theorem C2_counterexample_gallery_transitions :
    roomGalleryEx.status ≠ "drawing" ∧ roomGalleryEx.status ≠ "voting"
    ∧ roomGalleryEx.status ≠ "results" ∧ roomGalleryEx.status ≠ "finished"
    ∧ (transitionRoom 2000 [] 0 false dbGalleryEx roomGalleryEx).2 =
        some ⟨"rg", "gallery", "voting"⟩
    ∧ (transitionRoom 2000 [] 0 false dbGalleryEx roomGalleryEx).1.rooms.map
        Room.status = ["voting"] := by decide

/-! ## Claim C3 -/

/-- C3 counterexample: the targeted `transition_room` action never
compares the deadline against the clock — at time 500, before the room's
deadline 1000, it still commits drawing → voting, so `advance` through
the targeted action is not a no-op on an unexpired room. -/
theorem C3_counterexample_targeted_ignores_deadline :
    roomDrawingEx.phase_end_at = some 1000 ∧ 500 < 1000
    ∧ (transition_room 500 [] 0 false dbDrawingEx "r1").1.rooms.map
        Room.status = ["voting"]
    ∧ (transition_room 500 [] 0 false dbDrawingEx "r1").2 =
        some ⟨"r1", "drawing", "voting"⟩ := by decide

/-! ## Claim C4 -/

/-- C4 counterexample: a zero-vote drawing is present in the scoring
pass's drawing set, yet the pass issues no score update at all — the
claimed delta-0 update for its owner p2 is absent. -/
theorem C4_counterexample_zero_vote_omitted :
    roundDrawings dbZeroVoteEx.drawings "r1" 1 =
        [⟨"d0", "r1", "p2", 1, "img0", 0⟩]
    ∧ (updateScoresFromVotes false dbZeroVoteEx "r1" 1).2 = [] := by decide

/-! ## Claim C6 -/

/-- C6 counterexample: player p1 casting the first vote of the round on
their own drawing d1 is accepted and the self-vote is inserted into the
vote set — no ownership check exists at the operation boundary. -/
theorem C6_counterexample_self_vote_accepted :
    (dbSelfVoteEx.drawings.find? (fun d => d.id == "d1")).map
        Drawing.player_id = some "p1"
    ∧ (castVote dbSelfVoteEx "r1" "p1" "d1" 1).2 = CastVoteOutcome.accepted
    ∧ (⟨"r1", "p1", "d1", 1⟩ : Vote) ∈
        (castVote dbSelfVoteEx "r1" "p1" "d1" 1).1.votes := by decide

/-! ## Claim C7 -/

/-- C7 counterexample: the room is in the voting phase, yet
`submitDrawing` succeeds and creates a Drawing row — there is no
phase-validation failure. -/
theorem C7_counterexample_submit_during_voting :
    roomVotingEx.status = "voting"
    ∧ (submitDrawing dbVotingEmptyEx roomVotingEx "p1" "img" "d9").2 = true
    ∧ (submitDrawing dbVotingEmptyEx roomVotingEx "p1" "img" "d9").1.drawings =
        [⟨"d9", "r1", "p1", 1, "img", 0⟩] := by decide

/-! ## Claim C8 -/

/-- C8 counterexample: submitting payload "a" and then payload "b" for
the same (player, room, round) leaves the stored payload as "b" — the
second call merges over the first (the upsert uses merge-on-conflict),
so the state after the second submission differs from the state after
the first. -/
theorem C8_counterexample_second_payload_overwrites :
    (submitDrawing dbDrawingEx roomDrawingEx "p1" "a" "d1").1.drawings.map
        Drawing.image_data = ["a"]
    ∧ (submitDrawing (submitDrawing dbDrawingEx roomDrawingEx "p1" "a" "d1").1
        roomDrawingEx "p1" "b" "d2").1.drawings.map Drawing.image_data = ["b"]
    ∧ (submitDrawing (submitDrawing dbDrawingEx roomDrawingEx "p1" "a" "d1").1
        roomDrawingEx "p1" "b" "d2").1 ≠
      (submitDrawing dbDrawingEx roomDrawingEx "p1" "a" "d1").1 := by decide

/-- C2 (amended): the committed transition table, with the gallery case
the original claim's default clause misses.  On a single-room store:
drawing → voting with deadline now + vote_time; voting → results with the
fixed 10-second deadline; results → finished with a null deadline when
current_round ≥ total_rounds; results → drawing otherwise, incrementing
the round and setting deadline now + draw_time, with the prompt drawn
from the pool at the random index (the two results → drawing conjuncts
cover every pool: one yields the chosen pool element, the one for an
empty pool commits the same row with the prompt unchanged); gallery →
voting with deadline now + vote_time; any other phase value (in
particular finished and lobby) produces no transition and leaves the
store untouched. -/
theorem C2_amended_transition_table (now : Nat) (prompts : List String)
    (k : Nat) (ferr : Bool) (r : Room) (pl : List Player) (ds : List Drawing)
    (vs : List Vote) :
    (r.status = "drawing" →
      (transitionRoom now prompts k ferr ⟨[r], pl, ds, vs⟩ r).1.rooms =
          [{ r with status := "voting",
                    phase_end_at := some (now + r.vote_time * 1000) }]
        ∧ (transitionRoom now prompts k ferr ⟨[r], pl, ds, vs⟩ r).2 =
            some ⟨r.id, "drawing", "voting"⟩)
    ∧ (r.status = "voting" →
      (transitionRoom now prompts k ferr ⟨[r], pl, ds, vs⟩ r).1.rooms =
          [{ r with status := "results",
                    phase_end_at := some (now + 10000) }]
        ∧ (transitionRoom now prompts k ferr ⟨[r], pl, ds, vs⟩ r).2 =
            some ⟨r.id, "voting", "results"⟩)
    ∧ (r.status = "results" → r.total_rounds ≤ r.current_round →
      (transitionRoom now prompts k ferr ⟨[r], pl, ds, vs⟩ r).1.rooms =
          [{ r with status := "finished", phase_end_at := none }]
        ∧ (transitionRoom now prompts k ferr ⟨[r], pl, ds, vs⟩ r).2 =
            some ⟨r.id, "results", "finished"⟩)
    ∧ (∀ t, r.status = "results" → r.current_round < r.total_rounds →
        prompts.get? (k % prompts.length) = some t →
      t ∈ prompts
        ∧ (transitionRoom now prompts k ferr ⟨[r], pl, ds, vs⟩ r).1.rooms =
            [{ r with status := "drawing",
                      current_round := r.current_round + 1,
                      current_prompt := some t,
                      phase_end_at := some (now + r.draw_time * 1000) }]
        ∧ (transitionRoom now prompts k ferr ⟨[r], pl, ds, vs⟩ r).2 =
            some ⟨r.id, "results", "drawing"⟩)
    ∧ (r.status = "results" → r.current_round < r.total_rounds →
        prompts = [] →
      (transitionRoom now prompts k ferr ⟨[r], pl, ds, vs⟩ r).1.rooms =
          [{ r with status := "drawing",
                    current_round := r.current_round + 1,
                    phase_end_at := some (now + r.draw_time * 1000) }]
        ∧ (transitionRoom now prompts k ferr ⟨[r], pl, ds, vs⟩ r).2 =
            some ⟨r.id, "results", "drawing"⟩)
    ∧ (r.status = "gallery" →
      (transitionRoom now prompts k ferr ⟨[r], pl, ds, vs⟩ r).1.rooms =
          [{ r with status := "voting",
                    phase_end_at := some (now + r.vote_time * 1000) }]
        ∧ (transitionRoom now prompts k ferr ⟨[r], pl, ds, vs⟩ r).2 =
            some ⟨r.id, "gallery", "voting"⟩)
    ∧ (r.status ≠ "drawing" → r.status ≠ "voting" → r.status ≠ "results" →
        r.status ≠ "gallery" →
      transitionRoom now prompts k ferr ⟨[r], pl, ds, vs⟩ r =
        (⟨[r], pl, ds, vs⟩, none)) := by
  refine ⟨?_, ?_, ?_, ?_, ?_, ?_, ?_⟩
  · intro h
    constructor <;>
      simp [transitionRoom, transitionFields, h, updateRoomRow,
        updateScoresFromVotes_rooms]
  · intro h
    constructor <;>
      simp [transitionRoom, transitionFields, h, updateRoomRow,
        updateScoresFromVotes_rooms]
  · intro h hle
    constructor <;>
      simp [transitionRoom, transitionFields, h, hle, updateRoomRow,
        updateScoresFromVotes_rooms]
  · intro t h hlt hget
    have hnle : ¬ r.total_rounds ≤ r.current_round := Nat.not_le.mpr hlt
    have hget' : prompts[k % prompts.length]? = some t := by
      simpa [List.get?_eq_getElem?] using hget
    refine ⟨List.get?_mem hget, ?_, ?_⟩ <;>
      simp [transitionRoom, transitionFields, h, hnle, hget', updateRoomRow,
        updateScoresFromVotes_rooms]
  · intro h hlt hempty
    have hnle : ¬ r.total_rounds ≤ r.current_round := Nat.not_le.mpr hlt
    subst hempty
    constructor <;>
      simp [transitionRoom, transitionFields, h, hnle, updateRoomRow,
        updateScoresFromVotes_rooms]
  · intro h
    constructor <;>
      simp [transitionRoom, transitionFields, h, updateRoomRow,
        updateScoresFromVotes_rooms]
  · intro h1 h2 h3 h4
    simp [transitionRoom, transitionFields, h1, h2, h3, h4]

/-- C2 witness: the drawing → voting row of the table at the concrete
drawing-phase room, the empty-pool results → drawing row at the concrete
results-phase room (round 1 of 3), and the no-transition default at the
concrete finished room. -/
theorem C2_amended_transition_table_witness :
    ((transitionRoom 2000 ["p"] 0 false dbDrawingEx roomDrawingEx).1.rooms =
        [{ roomDrawingEx with
            status := "voting",
            phase_end_at := some (2000 + roomDrawingEx.vote_time * 1000) }]
      ∧ (transitionRoom 2000 ["p"] 0 false dbDrawingEx roomDrawingEx).2 =
          some ⟨roomDrawingEx.id, "drawing", "voting"⟩)
    ∧ ((transitionRoom 2000 [] 0 false ⟨[roomResultsEx], [], [], []⟩
          roomResultsEx).1.rooms =
        [{ roomResultsEx with
            status := "drawing",
            current_round := roomResultsEx.current_round + 1,
            phase_end_at := some (2000 + roomResultsEx.draw_time * 1000) }]
      ∧ (transitionRoom 2000 [] 0 false ⟨[roomResultsEx], [], [], []⟩
          roomResultsEx).2 = some ⟨roomResultsEx.id, "results", "drawing"⟩)
    ∧ transitionRoom 2000 ["p"] 0 false ⟨[roomFinishedEx], [], [], []⟩
        roomFinishedEx = (⟨[roomFinishedEx], [], [], []⟩, none) :=
  ⟨(C2_amended_transition_table 2000 ["p"] 0 false roomDrawingEx [] [] []).1
      (by decide),
   (C2_amended_transition_table 2000 [] 0 false roomResultsEx
      [] [] []).2.2.2.2.1 (by decide) (by decide) rfl,
   (C2_amended_transition_table 2000 ["p"] 0 false roomFinishedEx
      [] [] []).2.2.2.2.2.2 (by decide) (by decide) (by decide) (by decide)⟩

/-- C3 (amended): for a room whose deadline has not passed, the bulk
`check_phase_transitions` sweep is a no-op — its expiry filter excludes
the room, so the store (status, current_round, current_prompt,
phase_end_at, players, everything) is unchanged and no scoring runs —
but the targeted `transition_room` action performs no deadline check at
all: on a drawing-phase room it commits the transition to voting
whatever the clock says. -/
theorem C3_amended_sweep_guarded_targeted_unguarded :
    (∀ (now : Nat) (prompts : List String) (k : Nat) (ferr : Bool)
        (r : Room) (pl : List Player) (ds : List Drawing) (vs : List Vote)
        (t : Nat),
      r.phase_end_at = some t → now ≤ t →
      check_phase_transitions now prompts k ferr ⟨[r], pl, ds, vs⟩ =
        (⟨[r], pl, ds, vs⟩, []))
    ∧ (∀ (now : Nat) (prompts : List String) (k : Nat) (ferr : Bool)
        (r : Room) (pl : List Player) (ds : List Drawing) (vs : List Vote),
      r.status = "drawing" →
      (transition_room now prompts k ferr ⟨[r], pl, ds, vs⟩ r.id).1.rooms =
          [{ r with
              status := "voting",
              phase_end_at := some (now + r.vote_time * 1000) }]
        ∧ (transition_room now prompts k ferr ⟨[r], pl, ds, vs⟩ r.id).2 =
            some ⟨r.id, "drawing", "voting"⟩) := by
  constructor
  · intro now prompts k ferr r pl ds vs t hpe hle
    have hlt : ¬ t < now := Nat.not_lt.mpr hle
    have hexp : expiredRooms ⟨[r], pl, ds, vs⟩ now = [] := by
      simp [expiredRooms, hpe, hlt]
    simp [check_phase_transitions, hexp]
  · intro now prompts k ferr r pl ds vs hst
    have hfind :
        (⟨[r], pl, ds, vs⟩ : DB).rooms.find? (fun x => x.id == r.id) =
          some r := by simp
    constructor <;>
      simp [transition_room, hfind, transitionRoom, transitionFields, hst,
        updateRoomRow, updateScoresFromVotes_rooms]

/-- C3 witness: the sweep no-op at time 500 on the drawing-phase room
with deadline 1000, and the unguarded targeted transition on the same
room at the same time. -/
theorem C3_amended_sweep_guarded_targeted_unguarded_witness :
    check_phase_transitions 500 [] 0 false dbDrawingEx =
        (dbDrawingEx, [])
    ∧ (transition_room 500 [] 0 false dbDrawingEx roomDrawingEx.id).1.rooms =
        [{ roomDrawingEx with
            status := "voting",
            phase_end_at := some (500 + roomDrawingEx.vote_time * 1000) }] :=
  ⟨C3_amended_sweep_guarded_targeted_unguarded.1 500 [] 0 false roomDrawingEx
      [] [] [] 1000 (by decide) (by decide),
   (C3_amended_sweep_guarded_targeted_unguarded.2 500 [] 0 false roomDrawingEx
      [] [] [] (by decide)).1⟩

/-- C4 (amended): at the voting → results scoring pass, every player's
score grows by exactly the total vote count of their drawings of the
round (count mode: +1 per vote, so an owner of only zero-vote drawings
is unchanged); but zero-vote drawings are skipped rather than included
with a delta of 0 — every issued score update carries a strictly
positive delta, and a drawing with votes always yields its owner's
update. -/
theorem C4_amended_scoring (db : DB) (roomId : String) (round : Nat)
    (pid : String) :
    getScore (updateScoresFromVotes false db roomId round).1.players pid =
        (getScore db.players pid).map
          (· + sumVotes (roundDrawings db.drawings roomId round) pid)
    ∧ (∀ e ∈ (updateScoresFromVotes false db roomId round).2, 0 < e.2)
    ∧ (∀ d ∈ roundDrawings db.drawings roomId round, 0 < d.vote_count →
        (d.player_id, d.vote_count) ∈
          (updateScoresFromVotes false db roomId round).2) := by
  have hsnd : (updateScoresFromVotes false db roomId round).2 =
      scoreUpdates (roundDrawings db.drawings roomId round) := by
    simp [updateScoresFromVotes]
  refine ⟨?_, ?_, ?_⟩
  · simp [updateScoresFromVotes, getScore_scorePassPlayers]
  · intro e he
    rw [hsnd] at he
    rcases (mem_scoreUpdates _ _).1 he with ⟨d, _, hv, rfl⟩
    exact hv
  · intro d hd hv
    rw [hsnd]
    exact (mem_scoreUpdates _ _).2 ⟨d, hd, hv, rfl⟩

/-- C4 witness: on the concrete voting store, p1 (2 votes) gains exactly
2 points and the issued updates contain p1's entry; by the score formula
the zero-vote owner p2 is unchanged. -/
theorem C4_amended_scoring_witness :
    getScore (updateScoresFromVotes false dbVotingEx "r1" 1).1.players "p1" =
        (getScore dbVotingEx.players "p1").map
          (· + sumVotes (roundDrawings dbVotingEx.drawings "r1" 1) "p1")
    ∧ ("p1", 2) ∈ (updateScoresFromVotes false dbVotingEx "r1" 1).2 :=
  ⟨(C4_amended_scoring dbVotingEx "r1" 1 "p1").1,
   (C4_amended_scoring dbVotingEx "r1" 1 "p1").2.2
     ⟨"d1", "r1", "p1", 1, "img", 2⟩ (by decide) (by decide)⟩

/-- C6 (amended): `castVote` never consults the drawing's owner: its only
rejection is "Already voted", raised exactly when the voter already has a
vote in the round (client pre-check) or the insert would violate a vote
unique constraint; whenever neither holds the vote — a self-vote
included — is accepted and inserted into the vote set. -/
theorem C6_amended_no_ownership_check (db : DB)
    (roomId voterId drawingId : String) (round : Nat) :
    ((castVote db roomId voterId drawingId round).2 =
        CastVoteOutcome.alreadyVoted ↔
      (db.votes.any (fun w => w.voter_id == voterId && w.round == round) =
          true
        ∨ voteInsertConflict afterFixGame db.votes
            ⟨roomId, voterId, drawingId, round⟩ = true))
    ∧ (db.votes.any (fun w => w.voter_id == voterId && w.round == round) =
          false →
       voteInsertConflict afterFixGame db.votes
          ⟨roomId, voterId, drawingId, round⟩ = false →
       (castVote db roomId voterId drawingId round).2 =
          CastVoteOutcome.accepted
        ∧ (⟨roomId, voterId, drawingId, round⟩ : Vote) ∈
            (castVote db roomId voterId drawingId round).1.votes) := by
  by_cases h1 :
      db.votes.any (fun w => w.voter_id == voterId && w.round == round) = true
  · simp [castVote, h1]
  · have h1' :
        db.votes.any (fun w => w.voter_id == voterId && w.round == round) =
          false := by simpa using h1
    by_cases h2 : voteInsertConflict afterFixGame db.votes
        ⟨roomId, voterId, drawingId, round⟩ = true
    · simp [castVote, h1', h2]
    · have h2' : voteInsertConflict afterFixGame db.votes
          ⟨roomId, voterId, drawingId, round⟩ = false := by simpa using h2
      simp [castVote, h1', h2']

/-- C6 witness: the accepted-and-inserted conclusion at the concrete
self-vote input (voter p1, p1's own drawing d1, no prior votes). -/
theorem C6_amended_no_ownership_check_witness :
    (castVote dbSelfVoteEx "r1" "p1" "d1" 1).2 = CastVoteOutcome.accepted
    ∧ (⟨"r1", "p1", "d1", 1⟩ : Vote) ∈
        (castVote dbSelfVoteEx "r1" "p1" "d1" 1).1.votes :=
  (C6_amended_no_ownership_check dbSelfVoteEx "r1" "p1" "d1" 1).2
    (by decide) (by decide)

/-- C7 (amended): `submitDrawing` performs no phase or round validation
at all — for any room state whatsoever it reports success, and afterwards
a Drawing row keyed (player, room.id, room.current_round) carrying the
submitted payload exists (freshly inserted, or merged over a prior
row). -/
theorem C7_amended_no_phase_validation (db : DB) (room : Room)
    (playerId imageData newId : String) :
    (submitDrawing db room playerId imageData newId).2 = true
    ∧ ∃ d ∈ (submitDrawing db room playerId imageData newId).1.drawings,
        drawingKeyMatch d playerId room.id room.current_round = true
        ∧ d.image_data = imageData := by
  cases hf : db.drawings.find?
      (fun d => drawingKeyMatch d playerId room.id room.current_round) with
  | none =>
    refine ⟨by simp [submitDrawing, hf], ?_⟩
    refine ⟨⟨newId, room.id, playerId, room.current_round, imageData, 0⟩,
      ?_, ?_, rfl⟩
    · simp [submitDrawing, hf]
    · simp [drawingKeyMatch]
  | some d0 =>
    refine ⟨by simp [submitDrawing, hf], ?_⟩
    have hd0 : d0 ∈ db.drawings := List.mem_of_find?_eq_some hf
    have hp : drawingKeyMatch d0 playerId room.id room.current_round =
        true := by
      have hq := List.find?_some hf
      simpa using hq
    refine ⟨{ d0 with image_data := imageData }, ?_, ?_, rfl⟩
    · have hmem := List.mem_map_of_mem
        (fun d =>
          if drawingKeyMatch d playerId room.id room.current_round then
            { d with image_data := imageData }
          else d) hd0
      simpa [submitDrawing, hf, hp] using hmem
    · simpa [drawingKeyMatch] using hp

theorem submitDrawing_snd (db : DB) (room : Room)
    (playerId imageData newId : String) :
    (submitDrawing db room playerId imageData newId).2 = true := by
  cases hf : db.drawings.find?
      (fun d => drawingKeyMatch d playerId room.id room.current_round) <;>
    simp [submitDrawing, hf]

theorem submitDrawing_drawings_none (db : DB) (room : Room)
    (playerId imageData newId : String)
    (hf : db.drawings.find?
      (fun d => drawingKeyMatch d playerId room.id room.current_round) =
        none) :
    (submitDrawing db room playerId imageData newId).1.drawings =
      db.drawings ++
        [({ id := newId, room_id := room.id, player_id := playerId,
            round := room.current_round, image_data := imageData,
            vote_count := 0 } : Drawing)] := by
  simp [submitDrawing, hf]

theorem submitDrawing_drawings_some (db : DB) (room : Room)
    (playerId imageData newId : String) (d0 : Drawing)
    (hf : db.drawings.find?
      (fun d => drawingKeyMatch d playerId room.id room.current_round) =
        some d0) :
    (submitDrawing db room playerId imageData newId).1.drawings =
      db.drawings.map
        (fun d =>
          if drawingKeyMatch d playerId room.id room.current_round then
            { d with image_data := imageData }
          else d) := by
  simp [submitDrawing, hf]

theorem map_merge_of_no_key (playerId roomId : String) (round : Nat)
    (img : String) (l : List Drawing)
    (h : l.find? (fun d => drawingKeyMatch d playerId roomId round) = none) :
    l.map
      (fun d =>
        if drawingKeyMatch d playerId roomId round then
          { d with image_data := img }
        else d) = l := by
  induction l with
  | nil => simp
  | cons a l ih =>
    rw [List.find?_cons] at h
    cases hp : drawingKeyMatch a playerId roomId round with
    | true => simp [hp] at h
    | false =>
      simp only [hp] at h
      simp [hp, ih h]

/-- C8 (amended): for a (player, room, round) with no prior submission,
submitting twice never creates two Drawing rows — afterwards the table
grew by exactly one row and exactly one row carries the key — and the
second call also reports success; but the second call is not free of
side effects: the upsert merges on conflict, so the surviving row's
payload is the second submission's (last write wins). -/
theorem C8_amended_upsert_merge (db : DB) (room : Room)
    (playerId img1 img2 id1 id2 : String)
    (h : db.drawings.find?
        (fun d => drawingKeyMatch d playerId room.id room.current_round) =
          none) :
    (submitDrawing db room playerId img1 id1).2 = true
    ∧ (submitDrawing (submitDrawing db room playerId img1 id1).1 room
        playerId img2 id2).2 = true
    ∧ ((submitDrawing (submitDrawing db room playerId img1 id1).1 room
          playerId img2 id2).1.drawings.filter
        (fun d => drawingKeyMatch d playerId room.id room.current_round)).map
          Drawing.image_data = [img2]
    ∧ (submitDrawing (submitDrawing db room playerId img1 id1).1 room
        playerId img2 id2).1.drawings.length = db.drawings.length + 1 := by
  have h1 := submitDrawing_drawings_none db room playerId img1 id1 h
  have hX : drawingKeyMatch
      ({ id := id1, room_id := room.id, player_id := playerId,
         round := room.current_round, image_data := img1,
         vote_count := 0 } : Drawing) playerId room.id room.current_round =
        true := by simp [drawingKeyMatch]
  have hfind2 : (submitDrawing db room playerId img1 id1).1.drawings.find?
      (fun d => drawingKeyMatch d playerId room.id room.current_round) =
        some ({ id := id1, room_id := room.id, player_id := playerId,
                round := room.current_round, image_data := img1,
                vote_count := 0 } : Drawing) := by
    rw [h1, find?_append_of_none _ _ _ h]
    simp [List.find?, hX]
  have h2 := submitDrawing_drawings_some
    (submitDrawing db room playerId img1 id1).1 room playerId img2 id2 _
    hfind2
  have hnil : db.drawings.filter
      (fun d => drawingKeyMatch d playerId room.id room.current_round) =
        [] := by
    refine List.filter_eq_nil_iff.mpr ?_
    intro d hd
    simp [List.find?_eq_none.mp h d hd]
  refine ⟨submitDrawing_snd db room playerId img1 id1,
    submitDrawing_snd _ room playerId img2 id2, ?_, ?_⟩
  · rw [h2, h1, List.map_append,
      map_merge_of_no_key playerId room.id room.current_round img2
        db.drawings h,
      List.filter_append, hnil]
    simp [drawingKeyMatch]
  · rw [h2, h1]
    simp

/-- C8 witness: the amended behaviour at the concrete store — submit
payload "a" then payload "b": both calls succeed, one row exists for the
key and it carries "b". -/
theorem C8_amended_upsert_merge_witness :
    (submitDrawing dbDrawingEx roomDrawingEx "p1" "a" "d1").2 = true
    ∧ (submitDrawing (submitDrawing dbDrawingEx roomDrawingEx "p1" "a" "d1").1
        roomDrawingEx "p1" "b" "d2").2 = true
    ∧ ((submitDrawing (submitDrawing dbDrawingEx roomDrawingEx "p1" "a" "d1").1
          roomDrawingEx "p1" "b" "d2").1.drawings.filter
        (fun d => drawingKeyMatch d "p1" roomDrawingEx.id
          roomDrawingEx.current_round)).map Drawing.image_data = ["b"]
    ∧ (submitDrawing (submitDrawing dbDrawingEx roomDrawingEx "p1" "a" "d1").1
        roomDrawingEx "p1" "b" "d2").1.drawings.length =
          dbDrawingEx.drawings.length + 1 :=
  C8_amended_upsert_merge dbDrawingEx roomDrawingEx "p1" "a" "b" "d1" "d2"
    (by decide)

/-- C9: in every reachable room state, phase_end_at is non-null exactly
when the phase is one of drawing, gallery, voting, results: creation
leaves it null in the lobby, every startGame and every committed advance
into drawing/voting/results writes a concrete deadline, and the advance
into finished writes null; the host's lobby settings updates touch
neither field. -/
theorem C9_phase_deadline_invariant (r : Room) (h : ReachableRoom r) :
    r.phase_end_at ≠ none ↔
      r.status ∈ (["drawing", "gallery", "voting", "results"] :
        List String) := by
  induction h with
  | created id code host_id => simp [createRoomRow]
  | settings_rounds r n hr ih => simpa using ih
  | settings_draw r n hr ih => simpa using ih
  | started r now prompts k hr ih => simp [startGameRow]
  | advanced r now prompts k st rnd pe pr hr heq ih =>
    unfold transitionFields at heq
    by_cases h1 : r.status = "drawing"
    · simp [h1] at heq
      obtain ⟨rfl, rfl, rfl, rfl⟩ := heq
      simp
    · by_cases h2 : r.status = "voting"
      · simp [h2, beq_iff_eq, h1] at heq
        obtain ⟨rfl, rfl, rfl, rfl⟩ := heq
        simp
      · by_cases h3 : r.status = "results"
        · simp [h3, beq_iff_eq, h1, h2] at heq
          by_cases h4 : r.current_round ≥ r.total_rounds
          · simp [h4] at heq
            obtain ⟨rfl, rfl, rfl, rfl⟩ := heq
            simp
          · simp [h4] at heq
            obtain ⟨rfl, rfl, rfl, rfl⟩ := heq
            simp
        · by_cases h5 : r.status = "gallery"
          · simp [h5, beq_iff_eq, h1, h2, h3] at heq
            obtain ⟨rfl, rfl, rfl, rfl⟩ := heq
            simp
          · simp [beq_iff_eq, h1, h2, h3, h5] at heq

/-- C9 witness: the invariant instantiated at a freshly created room,
reachable by the creation step. -/
theorem C9_phase_deadline_invariant_witness :
    (createRoomRow "r0" "ROOM" "host").phase_end_at ≠ none ↔
      (createRoomRow "r0" "ROOM" "host").status ∈
        (["drawing", "gallery", "voting", "results"] : List String) :=
  C9_phase_deadline_invariant _ (ReachableRoom.created "r0" "ROOM" "host")

theorem castVote_pre_alreadyVoted (db : DB)
    (roomId voterId drawingId : String) (round : Nat)
    (h : db.votes.any (fun w => w.voter_id == voterId && w.round == round) =
      true) :
    (castVote db roomId voterId drawingId round).2 =
      CastVoteOutcome.alreadyVoted := by
  simp [castVote, h]

/-- C10: the `(voter_id, room_id, round)` unique constraint added by the
2026-01-15 security migration survives the later fix_game migration
(which drops only the original `(voter_id, round)` constraint while
adding a `(voter_id, drawing_id)` one), and `castVote` pre-checks for any
existing vote by the voter in the round — so a voter with no prior votes
has a first vote on drawing A accepted, and a later vote on a different
drawing B of the same round rejected with the "Already voted" reason. -/
theorem C10_one_vote_per_room_round :
    (VoteConstraint.voter_room_round ∈ afterFixGame
      ∧ VoteConstraint.voter_round ∉ afterFixGame
      ∧ VoteConstraint.voter_drawing ∈ afterFixGame
      ∧ VoteConstraint.voter_room_round ∈ afterSecurityMigration)
    ∧ ∀ (db : DB) (roomId voterId dA dB : String) (round : Nat),
        db.votes.any (fun w => w.voter_id == voterId) = false →
        (castVote db roomId voterId dA round).2 = CastVoteOutcome.accepted
        ∧ (castVote (castVote db roomId voterId dA round).1 roomId voterId
            dB round).2 = CastVoteOutcome.alreadyVoted := by
  refine ⟨by decide, ?_⟩
  intro db roomId voterId dA dB round h
  rw [List.any_eq_false] at h
  have hpre : db.votes.any
      (fun w => w.voter_id == voterId && w.round == round) = false := by
    rw [List.any_eq_false]
    intro w hw
    simp [h w hw]
  have hconf : voteInsertConflict afterFixGame db.votes
      ⟨roomId, voterId, dA, round⟩ = false := by
    unfold voteInsertConflict
    rw [List.any_eq_false]
    intro w hw
    have hv : ¬ (w.voter_id == voterId) = true := h w hw
    simp only [Bool.not_eq_true] at hv
    simp [afterFixGame, afterSecurityMigration, initialVoteConstraints,
      violates, hv]
  have hvotes1 : (castVote db roomId voterId dA round).1.votes =
      db.votes ++ [⟨roomId, voterId, dA, round⟩] := by
    simp [castVote, hpre, hconf]
  refine ⟨by simp [castVote, hpre, hconf], ?_⟩
  have hpre2 : ((castVote db roomId voterId dA round).1.votes).any
      (fun w => w.voter_id == voterId && w.round == round) = true := by
    rw [hvotes1]
    simp
  exact castVote_pre_alreadyVoted _ _ _ _ _ hpre2

/-- C10 witness: on a store with no votes, voter p1's vote on drawing dA
is accepted and the subsequent vote on drawing dB of the same round is
rejected as "Already voted". -/
theorem C10_one_vote_per_room_round_witness :
    (castVote dbVotingEmptyEx "r1" "p1" "dA" 1).2 = CastVoteOutcome.accepted
    ∧ (castVote (castVote dbVotingEmptyEx "r1" "p1" "dA" 1).1 "r1" "p1"
        "dB" 1).2 = CastVoteOutcome.alreadyVoted :=
  C10_one_vote_per_room_round.2 dbVotingEmptyEx "r1" "p1" "dA" "dB" 1
    (by decide)
